import Mathlib

/-!
Verification development for the LoRa demodulator block (`LoRaDemod.cpp`).

The demodulator consumes a complex sample stream and extracts LoRa symbols
through a five-state synchronization machine (`work`).  The embedding below
follows the source member-for-member:

* `LoraDemodState` is the C++ `enum LoraDemodState`.
* `LoRaDemod` collects the mutable members of the C++ class that the state
  machine reads or writes (`N`, `_sync`, `_mtu`, `_state`, `_chirpTable`,
  `_symCount`, `_outSymbols`, `_id`, `_prevValue`).  The chirp-table pointer
  is represented by the two-valued selector `ChirpSel` (the pointer only ever
  holds `_upChirpTable.data()` or `_downChirpTable.data()`).
* `LoRaDemod.work` is the body of `LoRaDemod::work`.  The symbol detector
  (`LoRaDetector.hpp`, not part of the demodulator source file) is
  abstracted as an oracle `vals : ℕ → ChirpSel → ℕ`.
  Modelled from the spec: `detect()` consumes the N dechirped samples fed
  from the input stream and returns the index of the maximum-energy bin,
  an integer in [0, N); hence the detected value of one `work` sub-step is a
  function of the absolute input-stream offset of the block that was fed and
  of the chirp reference used for dechirping, which is exactly the oracle's
  signature.  Sample-level buffering and the debug mirrors are kept only as
  the element-count guards at the head of `work`.
* The chirp tables (floating-point in the source) are modelled in exact real
  arithmetic: `upChirpTable`/`downChirpTable` below.

`int16_t` stores are modelled by `toInt16`, the wrap-around conversion of a
nonnegative detector value to a signed 16-bit integer viewed in `ℤ`.
-/

/-- Which chirp reference `_chirpTable` currently points at. -/
inductive ChirpSel
  | up
  | down
deriving DecidableEq, Repr

/-- The C++ `enum LoraDemodState`. -/
inductive LoraDemodState
  | STATE_FRAMESYNC
  | STATE_DOWNCHIRP0
  | STATE_DOWNCHIRP1
  | STATE_QUARTERCHIRP
  | STATE_DATASYMBOLS
deriving DecidableEq, Repr

open LoraDemodState

/-- Wrap-around conversion of a natural number to a signed 16-bit value in `ℤ`
(the effect of `int16_t(value)` and of storing into the `short _prevValue`). -/
def toInt16 (v : ℕ) : ℤ :=
  ((v : ℤ) + 2 ^ 15) % 2 ^ 16 - 2 ^ 15

/-- The demodulator members touched by the state machine.  `oob` is a sticky
model flag recording that an indexed symbol store `_outSymbols[...]` was
performed with an index not less than the buffer capacity (undefined
behaviour in the C++ source); the store itself is modelled by the total
`List.set`, which leaves the list unchanged in that case. -/
structure LoRaDemod where
  N : ℕ
  sync : ℕ
  mtu : ℕ
  state : LoraDemodState
  chirpTable : ChirpSel
  symCount : ℕ
  outSymbols : List ℤ
  lastId : String
  prevValue : ℤ
  oob : Bool
deriving DecidableEq, Repr

/-- Constructor `LoRaDemod(sf)`: `N = 1 << sf`, `_sync = 0x12`, `_mtu = 256`.
The C++ constructor leaves `_state`, `_chirpTable`, `_symCount` and
`_prevValue` uninitialized until `activate`; the embedding picks the
activated values for them. -/
def LoRaDemod.init (sf : ℕ) : LoRaDemod :=
  { N := 2 ^ sf
    sync := 0x12
    mtu := 256
    state := STATE_FRAMESYNC
    chirpTable := ChirpSel.up
    symCount := 0
    outSymbols := []
    lastId := ""
    prevValue := 0
    oob := false }

/-- `LoRaDemod::setSync`. -/
def LoRaDemod.setSync (d : LoRaDemod) (s : ℕ) : LoRaDemod :=
  { d with sync := s }

/-- `LoRaDemod::setMTU`. -/
def LoRaDemod.setMTU (d : LoRaDemod) (m : ℕ) : LoRaDemod :=
  { d with mtu := m }

/-- `LoRaDemod::activate`: reset the state to `STATE_FRAMESYNC` and point the
chirp reference at the up-chirp table. -/
def LoRaDemod.activate (d : LoRaDemod) : LoRaDemod :=
  { d with state := STATE_FRAMESYNC, chirpTable := ChirpSel.up }

/-- The switch statement of `LoRaDemod::work` together with the epilogue
(`inPort->consume(total)` and `_prevValue = value`), at input-stream offset
`pos`, once the element-count guards have passed.  Returns the updated
demodulator, the number `total` of input samples consumed, and the frame
posted to output port 0, if any.  `vals` is the detector oracle (see the
file header). -/
def LoRaDemod.workBody (vals : ℕ → ChirpSel → ℕ) (d : LoRaDemod) (pos : ℕ) :
    LoRaDemod × ℕ × Option (List ℤ) :=
  let value := vals pos d.chirpTable
  match d.state with
  | STATE_FRAMESYNC =>
    if (d.prevValue + 1).tdiv 2 = 0 ∧ (value + 4) / 8 = d.sync / 16 then
      if (vals (pos + d.N) d.chirpTable + 4) / 8 = d.sync % 16 then
        ({ d with state := STATE_DOWNCHIRP0, chirpTable := ChirpSel.down,
                  lastId := "SYNC", prevValue := toInt16 value },
         2 * d.N, none)
      else
        ({ d with lastId := "X", prevValue := toInt16 value }, d.N - value, none)
    else
      ({ d with lastId := "X", prevValue := toInt16 value }, d.N - value, none)
  | STATE_DOWNCHIRP0 =>
    ({ d with state := STATE_DOWNCHIRP1, lastId := "DC", prevValue := toInt16 value },
     d.N, none)
  | STATE_DOWNCHIRP1 =>
    ({ d with state := STATE_QUARTERCHIRP, chirpTable := ChirpSel.up, lastId := "",
              outSymbols := List.replicate d.mtu 0, prevValue := toInt16 value },
     d.N, none)
  | STATE_QUARTERCHIRP =>
    ({ d with state := STATE_DATASYMBOLS, symCount := 0, lastId := "QC",
              prevValue := toInt16 value },
     d.N / 4, none)
  | STATE_DATASYMBOLS =>
    let buf := d.outSymbols.set d.symCount (toInt16 value)
    let oflag := d.oob || decide (d.outSymbols.length ≤ d.symCount)
    if d.symCount + 1 ≥ d.mtu then
      ({ d with state := STATE_FRAMESYNC, outSymbols := buf, symCount := d.symCount + 1,
                lastId := "S", prevValue := toInt16 value, oob := oflag },
       d.N, some buf)
    else
      ({ d with outSymbols := buf, symCount := d.symCount + 1,
                lastId := "S", prevValue := toInt16 value, oob := oflag },
       d.N, none)

/-- `LoRaDemod::work` including the element-count guards: with fewer than
`2N` unconsumed input samples, or fewer than `2N` elements of room on the
`raw` or `dec` debug port, the call returns before touching the protocol
state and consumes nothing. -/
def LoRaDemod.work (vals : ℕ → ChirpSel → ℕ) (avail rawAvail decAvail : ℕ)
    (d : LoRaDemod) (pos : ℕ) : LoRaDemod × ℕ × Option (List ℤ) :=
  if avail < 2 * d.N then (d, 0, none)
  else if rawAvail < 2 * d.N then (d, 0, none)
  else if decAvail < 2 * d.N then (d, 0, none)
  else d.workBody vals pos

/-- Run `n` successive `workBody` steps from demodulator `d` at input offset
`pos`, threading the consumed totals into the offset and collecting every
posted frame in order. -/
def runFrom (vals : ℕ → ChirpSel → ℕ) : LoRaDemod → ℕ → ℕ → LoRaDemod × ℕ × List (List ℤ)
  | d, pos, 0 => (d, pos, [])
  | d, pos, n + 1 =>
    let r := d.workBody vals pos
    let rest := runFrom vals r.1 (pos + r.2.1) n
    (rest.1, rest.2.1, r.2.2.toList ++ rest.2.2)

/-- Phase increment of loop iteration `i` of the chirp-table generator:
`(2*(i+N/2)*M_PI)/N` with the `size_t` division `N/2`. -/
noncomputable def chirpPhase (N i : ℕ) : ℝ :=
  ((2 * (i + N / 2) : ℕ) : ℝ) * Real.pi / (N : ℝ)

/-- The accumulated phase after iteration `i` (`phaseAccum += phase`). -/
noncomputable def phaseAccum (N i : ℕ) : ℝ :=
  ∑ k ∈ Finset.range (i + 1), chirpPhase N k

/-- Entry `i` of `_upChirpTable`: `conj(polar(1.0, phaseAccum))`, in exact
real arithmetic. -/
noncomputable def upChirpTable (N i : ℕ) : ℂ :=
  starRingEnd ℂ (Complex.exp ((phaseAccum N i : ℂ) * Complex.I))

/-- Entry `i` of `_downChirpTable`: `polar(1.0, phaseAccum)`, in exact real
arithmetic. -/
noncomputable def downChirpTable (N i : ℕ) : ℂ :=
  Complex.exp ((phaseAccum N i : ℂ) * Complex.I)

/-- The chirp-reference invariant of claim C9: the table pointer holds the
down-chirp exactly in the two down-chirp states, and the up-chirp in
`STATE_FRAMESYNC`, `STATE_QUARTERCHIRP` and `STATE_DATASYMBOLS`. -/
def chirpInv (d : LoRaDemod) : Prop :=
  d.chirpTable =
    if d.state = STATE_DOWNCHIRP0 ∨ d.state = STATE_DOWNCHIRP1 then ChirpSel.down
    else ChirpSel.up

/-- The buffer contents produced by `k` consecutive `STATE_DATASYMBOLS`
stores starting at buffer index `j` and input offset `pos` (each store is
`_outSymbols[_symCount] = int16_t(value)` followed by a full `N`-sample
consumption). -/
def writeSyms (vals : ℕ → ChirpSel → ℕ) (N : ℕ) : List ℤ → ℕ → ℕ → ℕ → List ℤ
  | b, _, _, 0 => b
  | b, j, pos, k + 1 =>
    writeSyms vals N (b.set j (toInt16 (vals pos ChirpSel.up))) (j + 1) (pos + N) k

/-- Coupling relation for claim C7: two demodulators that agree on every
member the state machine can still observe, the in-progress symbol buffer
and counter excepted wherever a fresh allocation (`STATE_DOWNCHIRP1`) or
counter reset (`STATE_QUARTERCHIRP`) is guaranteed to intervene before they
are read. -/
def framesIndep (a b : LoRaDemod) : Prop :=
  a.N = b.N ∧ a.sync = b.sync ∧ a.mtu = b.mtu ∧ a.state = b.state ∧
  a.chirpTable = b.chirpTable ∧ a.prevValue = b.prevValue ∧
  (a.state = STATE_QUARTERCHIRP → a.outSymbols = b.outSymbols) ∧
  (a.state = STATE_DATASYMBOLS → a.outSymbols = b.outSymbols ∧ a.symCount = b.symCount)

/-- A demodulator mid-frame at spreading factor 16 (`N = 2^16`), one symbol
away from completing an MTU-1 frame: scenario for the `int16_t` symbol
store. -/
def demodSF16 : LoRaDemod :=
  { N := 2 ^ 16
    sync := 0x12
    mtu := 1
    state := STATE_DATASYMBOLS
    chirpTable := ChirpSel.up
    symCount := 0
    outSymbols := [0]
    lastId := ""
    prevValue := 0
    oob := false }

/-- An activated spreading-factor-4 demodulator whose MTU was set to 0
before any frame was synchronized: scenario for the out-of-bounds store. -/
def demodMTU0 : LoRaDemod :=
  ((LoRaDemod.init 4).activate).setMTU 0

/-- Detector oracle presenting a valid frame for the default sync word
`0x12` at `N = 16`: sync symbol 4 (high nibble 1) at offset 0, sync symbol
12 (low nibble 2) at offset 16, zeros elsewhere. -/
def vals10 : ℕ → ChirpSel → ℕ :=
  fun p _ => if p = 0 then 4 else if p = 16 then 12 else 0

/-- A freshly constructed `N = 16` demodulator whose previous detected value
is 5 (not near zero): full-frame scenario start state. -/
def demodW : LoRaDemod :=
  { LoRaDemod.init 4 with prevValue := 5 }

/-- Detector oracle with a near-zero preamble block at offset 0, the two
default sync symbols at offsets 16 and 32, and zeros elsewhere. -/
def valsW : ℕ → ChirpSel → ℕ :=
  fun p _ => if p = 16 then 4 else if p = 32 then 12 else 0

/-- `toInt16` is the identity below `2^15`. -/
theorem toInt16_eq_of_lt (v : ℕ) (h : v < 2 ^ 15) : toInt16 v = (v : ℤ) := by
  unfold toInt16
  have h1 : (0 : ℤ) ≤ (v : ℤ) + 2 ^ 15 := by positivity
  have h2 : (v : ℤ) + 2 ^ 15 < 2 ^ 16 := by
    have : (v : ℤ) < 2 ^ 15 := by exact_mod_cast h
    linarith
  rw [Int.emod_eq_of_lt h1 h2]
  ring

/-- Equation for a `STATE_FRAMESYNC` step that achieves full sync. -/
theorem workBody_framesync_sync (vals : ℕ → ChirpSel → ℕ) (d : LoRaDemod) (pos : ℕ)
    (hs : d.state = STATE_FRAMESYNC)
    (h0 : (d.prevValue + 1).tdiv 2 = 0)
    (h1 : (vals pos d.chirpTable + 4) / 8 = d.sync / 16)
    (h2 : (vals (pos + d.N) d.chirpTable + 4) / 8 = d.sync % 16) :
    d.workBody vals pos =
      ({ d with state := STATE_DOWNCHIRP0, chirpTable := ChirpSel.down,
                lastId := "SYNC", prevValue := toInt16 (vals pos d.chirpTable) },
       2 * d.N, none) := by
  unfold LoRaDemod.workBody
  rw [hs]
  simp [h0, h1, h2]

/-- Equation for a `STATE_FRAMESYNC` step that does not achieve full sync. -/
theorem workBody_framesync_nosync (vals : ℕ → ChirpSel → ℕ) (d : LoRaDemod) (pos : ℕ)
    (hs : d.state = STATE_FRAMESYNC)
    (h : ¬((d.prevValue + 1).tdiv 2 = 0 ∧ (vals pos d.chirpTable + 4) / 8 = d.sync / 16 ∧
           (vals (pos + d.N) d.chirpTable + 4) / 8 = d.sync % 16)) :
    d.workBody vals pos =
      ({ d with lastId := "X", prevValue := toInt16 (vals pos d.chirpTable) },
       d.N - vals pos d.chirpTable, none) := by
  unfold LoRaDemod.workBody
  rw [hs]
  by_cases hc : (d.prevValue + 1).tdiv 2 = 0 ∧ (vals pos d.chirpTable + 4) / 8 = d.sync / 16
  · have h2 : ¬((vals (pos + d.N) d.chirpTable + 4) / 8 = d.sync % 16) := fun hx =>
      h ⟨hc.1, hc.2, hx⟩
    simp [hc.1, hc.2, h2]
  · simp only [if_neg hc]

/-- Equation for a `STATE_DOWNCHIRP0` step. -/
theorem workBody_downchirp0 (vals : ℕ → ChirpSel → ℕ) (d : LoRaDemod) (pos : ℕ)
    (hs : d.state = STATE_DOWNCHIRP0) :
    d.workBody vals pos =
      ({ d with state := STATE_DOWNCHIRP1, lastId := "DC",
                prevValue := toInt16 (vals pos d.chirpTable) }, d.N, none) := by
  unfold LoRaDemod.workBody
  rw [hs]

/-- Equation for a `STATE_DOWNCHIRP1` step. -/
theorem workBody_downchirp1 (vals : ℕ → ChirpSel → ℕ) (d : LoRaDemod) (pos : ℕ)
    (hs : d.state = STATE_DOWNCHIRP1) :
    d.workBody vals pos =
      ({ d with state := STATE_QUARTERCHIRP, chirpTable := ChirpSel.up, lastId := "",
                outSymbols := List.replicate d.mtu 0,
                prevValue := toInt16 (vals pos d.chirpTable) }, d.N, none) := by
  unfold LoRaDemod.workBody
  rw [hs]

/-- Equation for a `STATE_QUARTERCHIRP` step. -/
theorem workBody_quarterchirp (vals : ℕ → ChirpSel → ℕ) (d : LoRaDemod) (pos : ℕ)
    (hs : d.state = STATE_QUARTERCHIRP) :
    d.workBody vals pos =
      ({ d with state := STATE_DATASYMBOLS, symCount := 0, lastId := "QC",
                prevValue := toInt16 (vals pos d.chirpTable) }, d.N / 4, none) := by
  unfold LoRaDemod.workBody
  rw [hs]

/-- Equation for a `STATE_DATASYMBOLS` step that completes the frame. -/
theorem workBody_data_emit (vals : ℕ → ChirpSel → ℕ) (d : LoRaDemod) (pos : ℕ)
    (hs : d.state = STATE_DATASYMBOLS) (hc : d.symCount + 1 ≥ d.mtu) :
    d.workBody vals pos =
      ({ d with state := STATE_FRAMESYNC,
                outSymbols := d.outSymbols.set d.symCount (toInt16 (vals pos d.chirpTable)),
                symCount := d.symCount + 1, lastId := "S",
                prevValue := toInt16 (vals pos d.chirpTable),
                oob := d.oob || decide (d.outSymbols.length ≤ d.symCount) },
       d.N, some (d.outSymbols.set d.symCount (toInt16 (vals pos d.chirpTable)))) := by
  unfold LoRaDemod.workBody
  rw [hs]
  simp [hc]

/-- Equation for a `STATE_DATASYMBOLS` step that does not complete the frame. -/
theorem workBody_data_go (vals : ℕ → ChirpSel → ℕ) (d : LoRaDemod) (pos : ℕ)
    (hs : d.state = STATE_DATASYMBOLS) (hc : ¬(d.symCount + 1 ≥ d.mtu)) :
    d.workBody vals pos =
      ({ d with outSymbols := d.outSymbols.set d.symCount (toInt16 (vals pos d.chirpTable)),
                symCount := d.symCount + 1, lastId := "S",
                prevValue := toInt16 (vals pos d.chirpTable),
                oob := d.oob || decide (d.outSymbols.length ≤ d.symCount) },
       d.N, none) := by
  unfold LoRaDemod.workBody
  rw [hs]
  simp [hc]

/-- Unfolding a run one step at a time given the step's result. -/
theorem runFrom_succ_of_step (vals : ℕ → ChirpSel → ℕ) (d d' : LoRaDemod)
    (pos t n : ℕ) (fr : Option (List ℤ))
    (h : d.workBody vals pos = (d', t, fr)) :
    runFrom vals d pos (n + 1) =
      ((runFrom vals d' (pos + t) n).1, (runFrom vals d' (pos + t) n).2.1,
       fr.toList ++ (runFrom vals d' (pos + t) n).2.2) := by
  simp [runFrom, h]

/-- C4: for every spreading factor `sf` with `N = 2^sf` and every index
`i < N`, the generated down-chirp sample `i` is the complex conjugate of the
up-chirp sample `i`, and both have unit magnitude (exact real arithmetic
standing for the floating-point tolerance). -/
theorem chirp_tables_conjugate_unit (sf i : ℕ) (h : i < 2 ^ sf) :
    downChirpTable (2 ^ sf) i = starRingEnd ℂ (upChirpTable (2 ^ sf) i) ∧
    Complex.abs (upChirpTable (2 ^ sf) i) = 1 ∧
    Complex.abs (downChirpTable (2 ^ sf) i) = 1 := by
  refine ⟨?_, ?_, ?_⟩
  · simp [upChirpTable, downChirpTable]
  · simp [upChirpTable, Complex.abs_conj, Complex.abs_exp_ofReal_mul_I]
  · simp [downChirpTable, Complex.abs_exp_ofReal_mul_I]

/-- Witness for C4 at `sf = 0`, `i = 0`. -/
theorem chirp_tables_conjugate_unit_witness :
    downChirpTable (2 ^ 0) 0 = starRingEnd ℂ (upChirpTable (2 ^ 0) 0) ∧
    Complex.abs (upChirpTable (2 ^ 0) 0) = 1 ∧
    Complex.abs (downChirpTable (2 ^ 0) 0) = 1 :=
  chirp_tables_conjugate_unit 0 0 (by decide)

/-- C6: the code performs no validation — `setMTU 0` is accepted and stored
as-is (no contract violation is signalled), and the constructor's
`N = 2^sf` is positive for every `sf`, so neither rejection demanded by the
claim exists in the code. -/
theorem setMTU_accepts_zero (d : LoRaDemod) (sf : ℕ) :
    (d.setMTU 0).mtu = 0 ∧ (d.setMTU 0).state = d.state ∧
    (d.setMTU 0).outSymbols = d.outSymbols ∧ 0 < (LoRaDemod.init sf).N := by
  refine ⟨rfl, rfl, rfl, ?_⟩
  simp only [LoRaDemod.init]
  positivity

/-- C8: a `work` call with fewer than `2N` unconsumed input samples, or with
fewer than `2N` elements of room on either debug port, changes nothing of
the demodulator state and consumes no input. -/
theorem work_insufficient_noop (vals : ℕ → ChirpSel → ℕ)
    (avail rawAvail decAvail : ℕ) (d : LoRaDemod) (pos : ℕ)
    (h : avail < 2 * d.N ∨ rawAvail < 2 * d.N ∨ decAvail < 2 * d.N) :
    d.work vals avail rawAvail decAvail pos = (d, 0, none) := by
  unfold LoRaDemod.work
  split_ifs with h1 h2 h3
  · rfl
  · rfl
  · rfl
  · rcases h with h | h | h
    · exact absurd h h1
    · exact absurd h h2
    · exact absurd h h3

/-- Witness for C8: a step with no available input is a no-op. -/
theorem work_insufficient_noop_witness :
    (LoRaDemod.init 3).work (fun _ _ => 0) 0 0 0 0 = (LoRaDemod.init 3, 0, none) :=
  work_insufficient_noop (fun _ _ => 0) 0 0 0 (LoRaDemod.init 3) 0 (Or.inl (by decide))

/-- C9: activation establishes the chirp-reference invariant `chirpInv`
(down-chirp exactly in the down-chirp states), and every `work` step
preserves it. -/
theorem chirp_table_tracks_state (vals : ℕ → ChirpSel → ℕ)
    (avail rawAvail decAvail : ℕ) (d : LoRaDemod) (pos : ℕ) :
    chirpInv d.activate ∧
    (chirpInv d → chirpInv (d.work vals avail rawAvail decAvail pos).1) := by
  constructor
  · simp [chirpInv, LoRaDemod.activate]
  · intro h
    unfold LoRaDemod.work
    split_ifs with h1 h2 h3
    · exact h
    · exact h
    · exact h
    · unfold LoRaDemod.workBody
      cases hst : d.state <;> simp_all [chirpInv] <;> split_ifs <;> simp_all

/-- Witness for C9: the invariant holds after one full `work` step from a
freshly activated demodulator. -/
theorem chirp_table_tracks_state_witness :
    chirpInv ((LoRaDemod.init 3).work (fun _ _ => 0) 16 16 16 0).1 :=
  (chirp_table_tracks_state (fun _ _ => 0) 16 16 16 (LoRaDemod.init 3) 0).2
    (by simp [chirpInv, LoRaDemod.init])

/-- C2: a `STATE_FRAMESYNC` step whose detected value lies in `[0, N)`
consumes exactly `N - value` samples — at least 1 and at most `N` — when
full sync (the `syncd`, `match0`, `match1` conjunction) is not achieved, and
exactly `2N` samples when it is. -/
theorem framesync_consumption (vals : ℕ → ChirpSel → ℕ) (d : LoRaDemod) (pos : ℕ)
    (hs : d.state = STATE_FRAMESYNC) (hv : vals pos d.chirpTable < d.N) :
    (¬((d.prevValue + 1).tdiv 2 = 0 ∧ (vals pos d.chirpTable + 4) / 8 = d.sync / 16 ∧
       (vals (pos + d.N) d.chirpTable + 4) / 8 = d.sync % 16) →
      (d.workBody vals pos).2.1 = d.N - vals pos d.chirpTable ∧
      1 ≤ (d.workBody vals pos).2.1 ∧ (d.workBody vals pos).2.1 ≤ d.N) ∧
    (((d.prevValue + 1).tdiv 2 = 0 ∧ (vals pos d.chirpTable + 4) / 8 = d.sync / 16 ∧
      (vals (pos + d.N) d.chirpTable + 4) / 8 = d.sync % 16) →
      (d.workBody vals pos).2.1 = 2 * d.N) := by
  constructor
  · intro h
    rw [workBody_framesync_nosync vals d pos hs h]
    refine ⟨rfl, ?_, ?_⟩
    · show 1 ≤ d.N - vals pos d.chirpTable
      omega
    · show d.N - vals pos d.chirpTable ≤ d.N
      omega
  · rintro ⟨h0, h1, h2⟩
    rw [workBody_framesync_sync vals d pos hs h0 h1 h2]

/-- Witness for C2: a concrete non-matching `STATE_FRAMESYNC` step. -/
theorem framesync_consumption_witness :
    (¬(((LoRaDemod.init 4).prevValue + 1).tdiv 2 = 0 ∧
       ((fun _ _ => 3 : ℕ → ChirpSel → ℕ) 0 (LoRaDemod.init 4).chirpTable + 4) / 8 =
         (LoRaDemod.init 4).sync / 16 ∧
       ((fun _ _ => 3 : ℕ → ChirpSel → ℕ) (0 + (LoRaDemod.init 4).N)
           (LoRaDemod.init 4).chirpTable + 4) / 8 = (LoRaDemod.init 4).sync % 16) →
      ((LoRaDemod.init 4).workBody (fun _ _ => 3) 0).2.1 =
        (LoRaDemod.init 4).N - (fun _ _ => 3 : ℕ → ChirpSel → ℕ) 0 (LoRaDemod.init 4).chirpTable ∧
      1 ≤ ((LoRaDemod.init 4).workBody (fun _ _ => 3) 0).2.1 ∧
      ((LoRaDemod.init 4).workBody (fun _ _ => 3) 0).2.1 ≤ (LoRaDemod.init 4).N) ∧
    ((((LoRaDemod.init 4).prevValue + 1).tdiv 2 = 0 ∧
      ((fun _ _ => 3 : ℕ → ChirpSel → ℕ) 0 (LoRaDemod.init 4).chirpTable + 4) / 8 =
        (LoRaDemod.init 4).sync / 16 ∧
      ((fun _ _ => 3 : ℕ → ChirpSel → ℕ) (0 + (LoRaDemod.init 4).N)
          (LoRaDemod.init 4).chirpTable + 4) / 8 = (LoRaDemod.init 4).sync % 16) →
      ((LoRaDemod.init 4).workBody (fun _ _ => 3) 0).2.1 = 2 * (LoRaDemod.init 4).N) :=
  framesync_consumption (fun _ _ => 3) (LoRaDemod.init 4) 0 rfl (by decide)

/-- C3: in `STATE_FRAMESYNC` the step transitions to `STATE_DOWNCHIRP0`,
switches to the down-chirp reference and annotates "SYNC" exactly when
`(prevValue+1)/2 = 0` (truncating division), `(value+4)/8` equals the sync
byte's high nibble, and `(value1+4)/8` equals its low nibble. -/
theorem framesync_sync_detection (vals : ℕ → ChirpSel → ℕ) (d : LoRaDemod) (pos : ℕ)
    (hs : d.state = STATE_FRAMESYNC) :
    ((d.workBody vals pos).1.state = STATE_DOWNCHIRP0 ∧
     (d.workBody vals pos).1.chirpTable = ChirpSel.down ∧
     (d.workBody vals pos).1.lastId = "SYNC") ↔
    ((d.prevValue + 1).tdiv 2 = 0 ∧
     (vals pos d.chirpTable + 4) / 8 = d.sync / 16 ∧
     (vals (pos + d.N) d.chirpTable + 4) / 8 = d.sync % 16) := by
  constructor
  · intro hgoal
    by_contra hneg
    rw [workBody_framesync_nosync vals d pos hs hneg] at hgoal
    have h' : d.state = STATE_DOWNCHIRP0 := hgoal.1
    rw [hs] at h'
    exact absurd h' (by decide)
  · rintro ⟨h0, h1, h2⟩
    rw [workBody_framesync_sync vals d pos hs h0 h1 h2]
    exact ⟨rfl, rfl, rfl⟩

/-- Witness for C3: the criterion instantiated at the default sync word
`0x12`, preamble value 0, sync symbols 4 and 12. -/
theorem framesync_sync_detection_witness :
    (((LoRaDemod.init 4).workBody (fun p _ => if p = 0 then 4 else 12) 0).1.state =
        STATE_DOWNCHIRP0 ∧
     ((LoRaDemod.init 4).workBody (fun p _ => if p = 0 then 4 else 12) 0).1.chirpTable =
        ChirpSel.down ∧
     ((LoRaDemod.init 4).workBody (fun p _ => if p = 0 then 4 else 12) 0).1.lastId =
        "SYNC") ↔
    (((LoRaDemod.init 4).prevValue + 1).tdiv 2 = 0 ∧
     ((fun p (_ : ChirpSel) => if p = 0 then 4 else 12) 0 (LoRaDemod.init 4).chirpTable + 4) / 8 =
       (LoRaDemod.init 4).sync / 16 ∧
     ((fun p (_ : ChirpSel) => if p = 0 then 4 else 12) (0 + (LoRaDemod.init 4).N)
         (LoRaDemod.init 4).chirpTable + 4) / 8 = (LoRaDemod.init 4).sync % 16) :=
  framesync_sync_detection (fun p _ => if p = 0 then 4 else 12) (LoRaDemod.init 4) 0 rfl

/-- C5: evidence that the emitted symbols are stored as signed `int16_t`,
not as unsigned 16-bit values: at `N = 2^16` a detected data value of 40000
is emitted as -25536 (the completed MTU-1 frame), which is not the detected
value. -/
theorem data_symbol_stored_signed :
    (demodSF16.workBody (fun _ _ => 40000) 0).2.2 = some [(-25536 : ℤ)] ∧
    ((-25536 : ℤ) ≠ (40000 : ℤ)) := by
  constructor
  · decide
  · decide

/-- C10: with the MTU set to 0 before synchronization, driving a valid
preamble through the machine leaves it in `STATE_DATASYMBOLS` with a
zero-capacity symbol buffer and counter 0, and the next step takes the
out-of-bounds branch of the indexed store (the `oob` flag is raised). -/
theorem mtu_zero_out_of_bounds_store :
    ((runFrom vals10 demodMTU0 0 4).1.state = STATE_DATASYMBOLS ∧
     (runFrom vals10 demodMTU0 0 4).1.outSymbols.length = 0 ∧
     (runFrom vals10 demodMTU0 0 4).1.symCount = 0 ∧
     (runFrom vals10 demodMTU0 0 4).1.mtu = 0) ∧
    (runFrom vals10 demodMTU0 0 5).1.oob = true := by
  decide

/-- A step that posts no frame drops out of the collected frame list. -/
theorem runFrom_succ_none (vals : ℕ → ChirpSel → ℕ) (d d' : LoRaDemod)
    (pos t n : ℕ) (h : d.workBody vals pos = (d', t, none)) :
    runFrom vals d pos (n + 1) = runFrom vals d' (pos + t) n := by
  simp [runFrom, h]

/-- Setting the element just past a left factor of an append. -/
theorem set_append_cons (v z : ℤ) :
    ∀ (b1 b2 : List ℤ), (b1 ++ z :: b2).set b1.length v = b1 ++ v :: b2
  | [], _ => rfl
  | a :: b1, b2 => by
    show a :: (b1 ++ z :: b2).set b1.length v = a :: (b1 ++ v :: b2)
    rw [set_append_cons v z b1 b2]

/-- The data-symbol stores fill the remainder of the buffer in order with
the wrapped detected values of the successive blocks. -/
theorem writeSyms_eq (vals : ℕ → ChirpSel → ℕ) (N : ℕ) :
    ∀ (k : ℕ) (b1 b2 : List ℤ) (pos : ℕ), b2.length = k →
      writeSyms vals N (b1 ++ b2) b1.length pos k =
        b1 ++ (List.range k).map (fun t => toInt16 (vals (pos + t * N) ChirpSel.up)) := by
  intro k
  induction k with
  | zero =>
    intro b1 b2 pos h
    rw [List.length_eq_zero] at h
    subst h
    simp [writeSyms]
  | succ k ih =>
    intro b1 b2 pos h
    cases b2 with
    | nil => simp at h
    | cons z b2 =>
      have h2 : b2.length = k := by simpa using h
      show writeSyms vals N ((b1 ++ z :: b2).set b1.length (toInt16 (vals pos ChirpSel.up)))
          (b1.length + 1) (pos + N) k = _
      rw [set_append_cons]
      have hb : b1 ++ toInt16 (vals pos ChirpSel.up) :: b2 =
          (b1 ++ [toInt16 (vals pos ChirpSel.up)]) ++ b2 := by simp
      rw [hb]
      have hlen : b1.length + 1 = (b1 ++ [toInt16 (vals pos ChirpSel.up)]).length := by simp
      rw [hlen, ih (b1 ++ [toInt16 (vals pos ChirpSel.up)]) b2 (pos + N) h2]
      have hfun : (fun t => toInt16 (vals (pos + N + t * N) ChirpSel.up)) =
          (fun t : ℕ => toInt16 (vals (pos + (t + 1) * N) ChirpSel.up)) := by
        funext t
        have harg : pos + N + t * N = pos + (t + 1) * N := by ring
        rw [harg]
      rw [List.range_succ_eq_map]
      simp [List.map_map, hfun, Function.comp]

/-- Running the data-symbol phase to completion: from `STATE_DATASYMBOLS`
with `k ≥ 1` symbols outstanding (`symCount + k = mtu`), `k` steps store
the detected values in order, emit exactly one frame, and return to
`STATE_FRAMESYNC`. -/
theorem runFrom_data (vals : ℕ → ChirpSel → ℕ) :
    ∀ (k N sy mtu sc : ℕ) (os : List ℤ) (li : String) (pv : ℤ) (ob : Bool) (pos : ℕ),
      sc + k = mtu → 1 ≤ k →
      (runFrom vals ⟨N, sy, mtu, STATE_DATASYMBOLS, ChirpSel.up, sc, os, li, pv, ob⟩
          pos k).1.state = STATE_FRAMESYNC ∧
      (runFrom vals ⟨N, sy, mtu, STATE_DATASYMBOLS, ChirpSel.up, sc, os, li, pv, ob⟩
          pos k).2.2 = [writeSyms vals N os sc pos k] := by
  intro k
  induction k with
  | zero =>
    intro N sy mtu sc os li pv ob pos hcnt hk
    exact absurd hk (by decide)
  | succ k ih =>
    intro N sy mtu sc os li pv ob pos hcnt hk
    rcases Nat.eq_zero_or_pos k with hk0 | hkpos
    · subst hk0
      have hc : (⟨N, sy, mtu, STATE_DATASYMBOLS, ChirpSel.up, sc, os, li, pv, ob⟩ :
          LoRaDemod).symCount + 1 ≥
          (⟨N, sy, mtu, STATE_DATASYMBOLS, ChirpSel.up, sc, os, li, pv, ob⟩ :
          LoRaDemod).mtu := by
        show sc + 1 ≥ mtu
        omega
      have e : (⟨N, sy, mtu, STATE_DATASYMBOLS, ChirpSel.up, sc, os, li, pv, ob⟩ :
          LoRaDemod).workBody vals pos =
          (⟨N, sy, mtu, STATE_FRAMESYNC, ChirpSel.up, sc + 1,
            os.set sc (toInt16 (vals pos ChirpSel.up)), "S",
            toInt16 (vals pos ChirpSel.up), ob || decide (os.length ≤ sc)⟩, N,
           some (os.set sc (toInt16 (vals pos ChirpSel.up)))) :=
        workBody_data_emit vals _ pos rfl hc
      rw [runFrom_succ_of_step vals _ _ pos N 0 _ e]
      exact ⟨rfl, rfl⟩
    · have hc : ¬((⟨N, sy, mtu, STATE_DATASYMBOLS, ChirpSel.up, sc, os, li, pv, ob⟩ :
          LoRaDemod).symCount + 1 ≥
          (⟨N, sy, mtu, STATE_DATASYMBOLS, ChirpSel.up, sc, os, li, pv, ob⟩ :
          LoRaDemod).mtu) := by
        show ¬(sc + 1 ≥ mtu)
        omega
      have e : (⟨N, sy, mtu, STATE_DATASYMBOLS, ChirpSel.up, sc, os, li, pv, ob⟩ :
          LoRaDemod).workBody vals pos =
          (⟨N, sy, mtu, STATE_DATASYMBOLS, ChirpSel.up, sc + 1,
            os.set sc (toInt16 (vals pos ChirpSel.up)), "S",
            toInt16 (vals pos ChirpSel.up), ob || decide (os.length ≤ sc)⟩, N, none) :=
        workBody_data_go vals _ pos rfl hc
      rw [runFrom_succ_none vals _ _ pos N k e]
      obtain ⟨ihs, ihf⟩ := ih N sy mtu (sc + 1) (os.set sc (toInt16 (vals pos ChirpSel.up)))
        "S" (toInt16 (vals pos ChirpSel.up)) (ob || decide (os.length ≤ sc)) (pos + N)
        (by omega) hkpos
      refine ⟨ihs, ?_⟩
      rw [ihf]
      simp only [writeSyms]

/-- C1: an input stream holding a full valid frame — a near-zero preamble
block, two sync symbols matching the configured nibbles, two down-chirp
blocks, one quarter-chirp block, then exactly MTU up-chirp data blocks
(values below `2^15`) — drives successive steps from `STATE_FRAMESYNC`
through `STATE_DOWNCHIRP0`, `STATE_DOWNCHIRP1`, `STATE_QUARTERCHIRP` and
`STATE_DATASYMBOLS` back to `STATE_FRAMESYNC`, and exactly one frame of
exactly MTU symbols equal to the injected data values is emitted. -/
theorem full_frame_demodulation (vals : ℕ → ChirpSel → ℕ) (d : LoRaDemod) (pos : ℕ)
    (hs : d.state = STATE_FRAMESYNC) (hch : d.chirpTable = ChirpSel.up)
    (hprev : ¬((d.prevValue + 1).tdiv 2 = 0))
    (hpre : vals pos ChirpSel.up = 0)
    (hm0 : (vals (pos + d.N) ChirpSel.up + 4) / 8 = d.sync / 16)
    (hm1 : (vals (pos + 2 * d.N) ChirpSel.up + 4) / 8 = d.sync % 16)
    (hmtu : 1 ≤ d.mtu)
    (hdata : ∀ t, t < d.mtu →
      vals (pos + 5 * d.N + d.N / 4 + t * d.N) ChirpSel.up < 2 ^ 15) :
    (runFrom vals d pos 2).1.state = STATE_DOWNCHIRP0 ∧
    (runFrom vals d pos 3).1.state = STATE_DOWNCHIRP1 ∧
    (runFrom vals d pos 4).1.state = STATE_QUARTERCHIRP ∧
    (runFrom vals d pos 5).1.state = STATE_DATASYMBOLS ∧
    (runFrom vals d pos (d.mtu + 5)).1.state = STATE_FRAMESYNC ∧
    (runFrom vals d pos (d.mtu + 5)).2.2 =
      [(List.range d.mtu).map
        (fun t => ((vals (pos + 5 * d.N + d.N / 4 + t * d.N) ChirpSel.up : ℕ) : ℤ))] := by
  obtain ⟨N, sy, mtu, st, ch, sc, os, li, pv, ob⟩ := d
  have hst : st = STATE_FRAMESYNC := hs
  subst hst
  have hcht : ch = ChirpSel.up := hch
  subst hcht
  have htz : toInt16 0 = 0 := by decide
  -- step 0: the near-zero preamble block is a search step consuming N samples
  have e0 : LoRaDemod.workBody vals
      ⟨N, sy, mtu, STATE_FRAMESYNC, ChirpSel.up, sc, os, li, pv, ob⟩ pos =
      (⟨N, sy, mtu, STATE_FRAMESYNC, ChirpSel.up, sc, os, "X",
        toInt16 (vals pos ChirpSel.up), ob⟩, N - vals pos ChirpSel.up, none) :=
    workBody_framesync_nosync vals _ pos rfl (fun hcon => hprev hcon.1)
  rw [hpre, htz, Nat.sub_zero] at e0
  -- step 1: both sync nibbles match, consuming 2N samples
  have e1 : LoRaDemod.workBody vals
      ⟨N, sy, mtu, STATE_FRAMESYNC, ChirpSel.up, sc, os, "X", 0, ob⟩ (pos + N) =
      (⟨N, sy, mtu, STATE_DOWNCHIRP0, ChirpSel.down, sc, os, "SYNC",
        toInt16 (vals (pos + N) ChirpSel.up), ob⟩, 2 * N, none) :=
    workBody_framesync_sync vals _ (pos + N) rfl
      (by show ((0 : ℤ) + 1).tdiv 2 = 0; decide) hm0 (by
      show (vals (pos + N + N) ChirpSel.up + 4) / 8 = sy % 16
      rw [show pos + N + N = pos + 2 * N by ring]
      exact hm1)
  -- step 2: first down-chirp block
  have e2 : LoRaDemod.workBody vals
      ⟨N, sy, mtu, STATE_DOWNCHIRP0, ChirpSel.down, sc, os, "SYNC",
        toInt16 (vals (pos + N) ChirpSel.up), ob⟩ (pos + N + 2 * N) =
      (⟨N, sy, mtu, STATE_DOWNCHIRP1, ChirpSel.down, sc, os, "DC",
        toInt16 (vals (pos + N + 2 * N) ChirpSel.down), ob⟩, N, none) :=
    workBody_downchirp0 vals _ (pos + N + 2 * N) rfl
  -- step 3: second down-chirp block, fresh MTU-capacity buffer
  have e3 : LoRaDemod.workBody vals
      ⟨N, sy, mtu, STATE_DOWNCHIRP1, ChirpSel.down, sc, os, "DC",
        toInt16 (vals (pos + N + 2 * N) ChirpSel.down), ob⟩ (pos + N + 2 * N + N) =
      (⟨N, sy, mtu, STATE_QUARTERCHIRP, ChirpSel.up, sc, List.replicate mtu 0, "",
        toInt16 (vals (pos + N + 2 * N + N) ChirpSel.down), ob⟩, N, none) :=
    workBody_downchirp1 vals _ (pos + N + 2 * N + N) rfl
  -- step 4: quarter-chirp block, counter reset
  have e4 : LoRaDemod.workBody vals
      ⟨N, sy, mtu, STATE_QUARTERCHIRP, ChirpSel.up, sc, List.replicate mtu 0, "",
        toInt16 (vals (pos + N + 2 * N + N) ChirpSel.down), ob⟩ (pos + N + 2 * N + N + N) =
      (⟨N, sy, mtu, STATE_DATASYMBOLS, ChirpSel.up, 0, List.replicate mtu 0, "QC",
        toInt16 (vals (pos + N + 2 * N + N + N) ChirpSel.up), ob⟩, N / 4, none) :=
    workBody_quarterchirp vals _ (pos + N + 2 * N + N + N) rfl
  have s1 : ∀ n, runFrom vals
      ⟨N, sy, mtu, STATE_FRAMESYNC, ChirpSel.up, sc, os, li, pv, ob⟩ pos (n + 1) =
      runFrom vals ⟨N, sy, mtu, STATE_FRAMESYNC, ChirpSel.up, sc, os, "X", 0, ob⟩
        (pos + N) n :=
    fun n => runFrom_succ_none vals _ _ pos N n e0
  have s2 : ∀ n, runFrom vals
      ⟨N, sy, mtu, STATE_FRAMESYNC, ChirpSel.up, sc, os, "X", 0, ob⟩ (pos + N) (n + 1) =
      runFrom vals ⟨N, sy, mtu, STATE_DOWNCHIRP0, ChirpSel.down, sc, os, "SYNC",
        toInt16 (vals (pos + N) ChirpSel.up), ob⟩ (pos + N + 2 * N) n :=
    fun n => runFrom_succ_none vals _ _ (pos + N) (2 * N) n e1
  have s3 : ∀ n, runFrom vals
      ⟨N, sy, mtu, STATE_DOWNCHIRP0, ChirpSel.down, sc, os, "SYNC",
        toInt16 (vals (pos + N) ChirpSel.up), ob⟩ (pos + N + 2 * N) (n + 1) =
      runFrom vals ⟨N, sy, mtu, STATE_DOWNCHIRP1, ChirpSel.down, sc, os, "DC",
        toInt16 (vals (pos + N + 2 * N) ChirpSel.down), ob⟩ (pos + N + 2 * N + N) n :=
    fun n => runFrom_succ_none vals _ _ (pos + N + 2 * N) N n e2
  have s4 : ∀ n, runFrom vals
      ⟨N, sy, mtu, STATE_DOWNCHIRP1, ChirpSel.down, sc, os, "DC",
        toInt16 (vals (pos + N + 2 * N) ChirpSel.down), ob⟩ (pos + N + 2 * N + N) (n + 1) =
      runFrom vals ⟨N, sy, mtu, STATE_QUARTERCHIRP, ChirpSel.up, sc, List.replicate mtu 0, "",
        toInt16 (vals (pos + N + 2 * N + N) ChirpSel.down), ob⟩ (pos + N + 2 * N + N + N) n :=
    fun n => runFrom_succ_none vals _ _ (pos + N + 2 * N + N) N n e3
  have s5 : ∀ n, runFrom vals
      ⟨N, sy, mtu, STATE_QUARTERCHIRP, ChirpSel.up, sc, List.replicate mtu 0, "",
        toInt16 (vals (pos + N + 2 * N + N) ChirpSel.down), ob⟩ (pos + N + 2 * N + N + N) (n + 1) =
      runFrom vals ⟨N, sy, mtu, STATE_DATASYMBOLS, ChirpSel.up, 0, List.replicate mtu 0, "QC",
        toInt16 (vals (pos + N + 2 * N + N + N) ChirpSel.up), ob⟩
        (pos + N + 2 * N + N + N + N / 4) n :=
    fun n => runFrom_succ_none vals _ _ (pos + N + 2 * N + N + N) (N / 4) n e4
  have c2 : runFrom vals
      ⟨N, sy, mtu, STATE_FRAMESYNC, ChirpSel.up, sc, os, li, pv, ob⟩ pos 2 =
      runFrom vals ⟨N, sy, mtu, STATE_DOWNCHIRP0, ChirpSel.down, sc, os, "SYNC",
        toInt16 (vals (pos + N) ChirpSel.up), ob⟩ (pos + N + 2 * N) 0 :=
    (s1 1).trans (s2 0)
  have c3 : runFrom vals
      ⟨N, sy, mtu, STATE_FRAMESYNC, ChirpSel.up, sc, os, li, pv, ob⟩ pos 3 =
      runFrom vals ⟨N, sy, mtu, STATE_DOWNCHIRP1, ChirpSel.down, sc, os, "DC",
        toInt16 (vals (pos + N + 2 * N) ChirpSel.down), ob⟩ (pos + N + 2 * N + N) 0 :=
    (s1 2).trans ((s2 1).trans (s3 0))
  have c4 : runFrom vals
      ⟨N, sy, mtu, STATE_FRAMESYNC, ChirpSel.up, sc, os, li, pv, ob⟩ pos 4 =
      runFrom vals ⟨N, sy, mtu, STATE_QUARTERCHIRP, ChirpSel.up, sc, List.replicate mtu 0, "",
        toInt16 (vals (pos + N + 2 * N + N) ChirpSel.down), ob⟩ (pos + N + 2 * N + N + N) 0 :=
    (s1 3).trans ((s2 2).trans ((s3 1).trans (s4 0)))
  have c5 : runFrom vals
      ⟨N, sy, mtu, STATE_FRAMESYNC, ChirpSel.up, sc, os, li, pv, ob⟩ pos 5 =
      runFrom vals ⟨N, sy, mtu, STATE_DATASYMBOLS, ChirpSel.up, 0, List.replicate mtu 0, "QC",
        toInt16 (vals (pos + N + 2 * N + N + N) ChirpSel.up), ob⟩
        (pos + N + 2 * N + N + N + N / 4) 0 :=
    (s1 4).trans ((s2 3).trans ((s3 2).trans ((s4 1).trans (s5 0))))
  have cData : runFrom vals
      ⟨N, sy, mtu, STATE_FRAMESYNC, ChirpSel.up, sc, os, li, pv, ob⟩ pos (mtu + 5) =
      runFrom vals ⟨N, sy, mtu, STATE_DATASYMBOLS, ChirpSel.up, 0, List.replicate mtu 0, "QC",
        toInt16 (vals (pos + N + 2 * N + N + N) ChirpSel.up), ob⟩
        (pos + N + 2 * N + N + N + N / 4) mtu :=
    (s1 (mtu + 4)).trans ((s2 (mtu + 3)).trans ((s3 (mtu + 2)).trans
      ((s4 (mtu + 1)).trans (s5 mtu))))
  obtain ⟨hfs, hframes⟩ := runFrom_data vals mtu N sy mtu 0 (List.replicate mtu 0) "QC"
    (toInt16 (vals (pos + N + 2 * N + N + N) ChirpSel.up)) ob
    (pos + N + 2 * N + N + N + N / 4) (by omega) hmtu
  refine ⟨?_, ?_, ?_, ?_, ?_, ?_⟩
  · rw [c2]
    rfl
  · rw [c3]
    rfl
  · rw [c4]
    rfl
  · rw [c5]
    rfl
  · rw [cData]
    exact hfs
  · rw [cData, hframes]
    have w : writeSyms vals N (List.replicate mtu 0) 0 (pos + N + 2 * N + N + N + N / 4) mtu =
        (List.range mtu).map
          (fun t => toInt16 (vals (pos + N + 2 * N + N + N + N / 4 + t * N) ChirpSel.up)) :=
      writeSyms_eq vals N mtu [] (List.replicate mtu 0)
        (pos + N + 2 * N + N + N + N / 4) (List.length_replicate mtu 0)
    rw [w]
    have hmap : (List.range mtu).map
        (fun t => toInt16 (vals (pos + N + 2 * N + N + N + N / 4 + t * N) ChirpSel.up)) =
        (List.range mtu).map
          (fun t => ((vals (pos + 5 * N + N / 4 + t * N) ChirpSel.up : ℕ) : ℤ)) := by
      apply List.map_congr_left
      intro t ht
      rw [List.mem_range] at ht
      have hp : pos + N + 2 * N + N + N + N / 4 + t * N = pos + 5 * N + N / 4 + t * N := by
        ring_nf
      rw [hp]
      exact toInt16_eq_of_lt _ (hdata t ht)
    rw [hmap]

set_option maxRecDepth 4000 in
/-- Witness for C1: the full-frame run at `N = 16`, default sync word and
MTU 256, with sync symbols 4 and 12 and all-zero data blocks. -/
theorem full_frame_demodulation_witness :
    (runFrom valsW demodW 0 2).1.state = STATE_DOWNCHIRP0 ∧
    (runFrom valsW demodW 0 3).1.state = STATE_DOWNCHIRP1 ∧
    (runFrom valsW demodW 0 4).1.state = STATE_QUARTERCHIRP ∧
    (runFrom valsW demodW 0 5).1.state = STATE_DATASYMBOLS ∧
    (runFrom valsW demodW 0 (demodW.mtu + 5)).1.state = STATE_FRAMESYNC ∧
    (runFrom valsW demodW 0 (demodW.mtu + 5)).2.2 =
      [(List.range demodW.mtu).map
        (fun t => ((valsW (0 + 5 * demodW.N + demodW.N / 4 + t * demodW.N)
          ChirpSel.up : ℕ) : ℤ))] :=
  full_frame_demodulation valsW demodW 0 rfl rfl (by decide) rfl (by decide) (by decide)
    (by decide) (by decide)


/-- One step preserves the C7 coupling relation and produces identical
consumption and identical posted frames. -/
theorem framesIndep_step (vals : ℕ → ChirpSel → ℕ) (pos : ℕ) :
    ∀ (a b : LoRaDemod), framesIndep a b →
      (a.workBody vals pos).2.1 = (b.workBody vals pos).2.1 ∧
      (a.workBody vals pos).2.2 = (b.workBody vals pos).2.2 ∧
      framesIndep (a.workBody vals pos).1 (b.workBody vals pos).1 := by
  rintro ⟨N1, sy1, mtu1, st1, ch1, sc1, os1, li1, pv1, ob1⟩
    ⟨N2, sy2, mtu2, st2, ch2, sc2, os2, li2, pv2, ob2⟩ h
  obtain ⟨hN, hsy, hmtu, hst, hch, hpv, hqc, hdat⟩ := h
  have hN' : N1 = N2 := hN
  have hsy' : sy1 = sy2 := hsy
  have hmtu' : mtu1 = mtu2 := hmtu
  have hst' : st1 = st2 := hst
  have hch' : ch1 = ch2 := hch
  have hpv' : pv1 = pv2 := hpv
  subst hN' hsy' hmtu' hst' hch' hpv'
  cases st1 with
  | STATE_FRAMESYNC =>
    by_cases hfull : (pv1 + 1).tdiv 2 = 0 ∧ (vals pos ch1 + 4) / 8 = sy1 / 16 ∧
        (vals (pos + N1) ch1 + 4) / 8 = sy1 % 16
    · have ea : LoRaDemod.workBody vals
          ⟨N1, sy1, mtu1, STATE_FRAMESYNC, ch1, sc1, os1, li1, pv1, ob1⟩ pos =
          (⟨N1, sy1, mtu1, STATE_DOWNCHIRP0, ChirpSel.down, sc1, os1, "SYNC",
            toInt16 (vals pos ch1), ob1⟩, 2 * N1, none) :=
        workBody_framesync_sync vals _ pos rfl hfull.1 hfull.2.1 hfull.2.2
      have eb : LoRaDemod.workBody vals
          ⟨N1, sy1, mtu1, STATE_FRAMESYNC, ch1, sc2, os2, li2, pv1, ob2⟩ pos =
          (⟨N1, sy1, mtu1, STATE_DOWNCHIRP0, ChirpSel.down, sc2, os2, "SYNC",
            toInt16 (vals pos ch1), ob2⟩, 2 * N1, none) :=
        workBody_framesync_sync vals _ pos rfl hfull.1 hfull.2.1 hfull.2.2
      rw [ea, eb]
      refine ⟨rfl, rfl, ?_⟩
      unfold framesIndep
      exact ⟨rfl, rfl, rfl, rfl, rfl, rfl,
        fun hc => absurd (show STATE_DOWNCHIRP0 = STATE_QUARTERCHIRP from hc) (by decide),
        fun hc => absurd (show STATE_DOWNCHIRP0 = STATE_DATASYMBOLS from hc) (by decide)⟩
    · have ea : LoRaDemod.workBody vals
          ⟨N1, sy1, mtu1, STATE_FRAMESYNC, ch1, sc1, os1, li1, pv1, ob1⟩ pos =
          (⟨N1, sy1, mtu1, STATE_FRAMESYNC, ch1, sc1, os1, "X",
            toInt16 (vals pos ch1), ob1⟩, N1 - vals pos ch1, none) :=
        workBody_framesync_nosync vals _ pos rfl (fun hcon => hfull hcon)
      have eb : LoRaDemod.workBody vals
          ⟨N1, sy1, mtu1, STATE_FRAMESYNC, ch1, sc2, os2, li2, pv1, ob2⟩ pos =
          (⟨N1, sy1, mtu1, STATE_FRAMESYNC, ch1, sc2, os2, "X",
            toInt16 (vals pos ch1), ob2⟩, N1 - vals pos ch1, none) :=
        workBody_framesync_nosync vals _ pos rfl (fun hcon => hfull hcon)
      rw [ea, eb]
      refine ⟨rfl, rfl, ?_⟩
      unfold framesIndep
      exact ⟨rfl, rfl, rfl, rfl, rfl, rfl,
        fun hc => absurd (show STATE_FRAMESYNC = STATE_QUARTERCHIRP from hc) (by decide),
        fun hc => absurd (show STATE_FRAMESYNC = STATE_DATASYMBOLS from hc) (by decide)⟩
  | STATE_DOWNCHIRP0 =>
    have ea : LoRaDemod.workBody vals
        ⟨N1, sy1, mtu1, STATE_DOWNCHIRP0, ch1, sc1, os1, li1, pv1, ob1⟩ pos =
        (⟨N1, sy1, mtu1, STATE_DOWNCHIRP1, ch1, sc1, os1, "DC",
          toInt16 (vals pos ch1), ob1⟩, N1, none) :=
      workBody_downchirp0 vals _ pos rfl
    have eb : LoRaDemod.workBody vals
        ⟨N1, sy1, mtu1, STATE_DOWNCHIRP0, ch1, sc2, os2, li2, pv1, ob2⟩ pos =
        (⟨N1, sy1, mtu1, STATE_DOWNCHIRP1, ch1, sc2, os2, "DC",
          toInt16 (vals pos ch1), ob2⟩, N1, none) :=
      workBody_downchirp0 vals _ pos rfl
    rw [ea, eb]
    refine ⟨rfl, rfl, ?_⟩
    unfold framesIndep
    exact ⟨rfl, rfl, rfl, rfl, rfl, rfl,
      fun hc => absurd (show STATE_DOWNCHIRP1 = STATE_QUARTERCHIRP from hc) (by decide),
      fun hc => absurd (show STATE_DOWNCHIRP1 = STATE_DATASYMBOLS from hc) (by decide)⟩
  | STATE_DOWNCHIRP1 =>
    have ea : LoRaDemod.workBody vals
        ⟨N1, sy1, mtu1, STATE_DOWNCHIRP1, ch1, sc1, os1, li1, pv1, ob1⟩ pos =
        (⟨N1, sy1, mtu1, STATE_QUARTERCHIRP, ChirpSel.up, sc1, List.replicate mtu1 0, "",
          toInt16 (vals pos ch1), ob1⟩, N1, none) :=
      workBody_downchirp1 vals _ pos rfl
    have eb : LoRaDemod.workBody vals
        ⟨N1, sy1, mtu1, STATE_DOWNCHIRP1, ch1, sc2, os2, li2, pv1, ob2⟩ pos =
        (⟨N1, sy1, mtu1, STATE_QUARTERCHIRP, ChirpSel.up, sc2, List.replicate mtu1 0, "",
          toInt16 (vals pos ch1), ob2⟩, N1, none) :=
      workBody_downchirp1 vals _ pos rfl
    rw [ea, eb]
    refine ⟨rfl, rfl, ?_⟩
    unfold framesIndep
    exact ⟨rfl, rfl, rfl, rfl, rfl, rfl, fun _ => rfl,
      fun hc => absurd (show STATE_QUARTERCHIRP = STATE_DATASYMBOLS from hc) (by decide)⟩
  | STATE_QUARTERCHIRP =>
    have hos : os1 = os2 := hqc rfl
    subst hos
    have ea : LoRaDemod.workBody vals
        ⟨N1, sy1, mtu1, STATE_QUARTERCHIRP, ch1, sc1, os1, li1, pv1, ob1⟩ pos =
        (⟨N1, sy1, mtu1, STATE_DATASYMBOLS, ch1, 0, os1, "QC",
          toInt16 (vals pos ch1), ob1⟩, N1 / 4, none) :=
      workBody_quarterchirp vals _ pos rfl
    have eb : LoRaDemod.workBody vals
        ⟨N1, sy1, mtu1, STATE_QUARTERCHIRP, ch1, sc2, os1, li2, pv1, ob2⟩ pos =
        (⟨N1, sy1, mtu1, STATE_DATASYMBOLS, ch1, 0, os1, "QC",
          toInt16 (vals pos ch1), ob2⟩, N1 / 4, none) :=
      workBody_quarterchirp vals _ pos rfl
    rw [ea, eb]
    refine ⟨rfl, rfl, ?_⟩
    unfold framesIndep
    exact ⟨rfl, rfl, rfl, rfl, rfl, rfl,
      fun hc => absurd (show STATE_DATASYMBOLS = STATE_QUARTERCHIRP from hc) (by decide),
      fun _ => ⟨rfl, rfl⟩⟩
  | STATE_DATASYMBOLS =>
    obtain ⟨hos, hsc⟩ := hdat rfl
    have hos' : os1 = os2 := hos
    have hsc' : sc1 = sc2 := hsc
    subst hos' hsc'
    by_cases hc : sc1 + 1 ≥ mtu1
    · have ea : LoRaDemod.workBody vals
          ⟨N1, sy1, mtu1, STATE_DATASYMBOLS, ch1, sc1, os1, li1, pv1, ob1⟩ pos =
          (⟨N1, sy1, mtu1, STATE_FRAMESYNC, ch1, sc1 + 1,
            os1.set sc1 (toInt16 (vals pos ch1)), "S", toInt16 (vals pos ch1),
            ob1 || decide (os1.length ≤ sc1)⟩, N1,
           some (os1.set sc1 (toInt16 (vals pos ch1)))) :=
        workBody_data_emit vals _ pos rfl hc
      have eb : LoRaDemod.workBody vals
          ⟨N1, sy1, mtu1, STATE_DATASYMBOLS, ch1, sc1, os1, li2, pv1, ob2⟩ pos =
          (⟨N1, sy1, mtu1, STATE_FRAMESYNC, ch1, sc1 + 1,
            os1.set sc1 (toInt16 (vals pos ch1)), "S", toInt16 (vals pos ch1),
            ob2 || decide (os1.length ≤ sc1)⟩, N1,
           some (os1.set sc1 (toInt16 (vals pos ch1)))) :=
        workBody_data_emit vals _ pos rfl hc
      rw [ea, eb]
      refine ⟨rfl, rfl, ?_⟩
      unfold framesIndep
      exact ⟨rfl, rfl, rfl, rfl, rfl, rfl,
        fun hcx => absurd (show STATE_FRAMESYNC = STATE_QUARTERCHIRP from hcx) (by decide),
        fun hcx => absurd (show STATE_FRAMESYNC = STATE_DATASYMBOLS from hcx) (by decide)⟩
    · have ea : LoRaDemod.workBody vals
          ⟨N1, sy1, mtu1, STATE_DATASYMBOLS, ch1, sc1, os1, li1, pv1, ob1⟩ pos =
          (⟨N1, sy1, mtu1, STATE_DATASYMBOLS, ch1, sc1 + 1,
            os1.set sc1 (toInt16 (vals pos ch1)), "S", toInt16 (vals pos ch1),
            ob1 || decide (os1.length ≤ sc1)⟩, N1, none) :=
        workBody_data_go vals _ pos rfl hc
      have eb : LoRaDemod.workBody vals
          ⟨N1, sy1, mtu1, STATE_DATASYMBOLS, ch1, sc1, os1, li2, pv1, ob2⟩ pos =
          (⟨N1, sy1, mtu1, STATE_DATASYMBOLS, ch1, sc1 + 1,
            os1.set sc1 (toInt16 (vals pos ch1)), "S", toInt16 (vals pos ch1),
            ob2 || decide (os1.length ≤ sc1)⟩, N1, none) :=
        workBody_data_go vals _ pos rfl hc
      rw [ea, eb]
      refine ⟨rfl, rfl, ?_⟩
      unfold framesIndep
      exact ⟨rfl, rfl, rfl, rfl, rfl, rfl,
        fun hcx => absurd (show STATE_DATASYMBOLS = STATE_QUARTERCHIRP from hcx) (by decide),
        fun _ => ⟨rfl, rfl⟩⟩

/-- Runs from two demodulators related by `framesIndep` post exactly the
same frames. -/
theorem framesIndep_run (vals : ℕ → ChirpSel → ℕ) :
    ∀ (n : ℕ) (a b : LoRaDemod) (pos : ℕ), framesIndep a b →
      (runFrom vals a pos n).2.2 = (runFrom vals b pos n).2.2 := by
  intro n
  induction n with
  | zero => intro a b pos _; rfl
  | succ n ih =>
    intro a b pos h
    obtain ⟨ht, hfr, hind⟩ := framesIndep_step vals pos a b h
    simp only [runFrom]
    rw [hfr, ht, ih (a.workBody vals pos).1 (b.workBody vals pos).1
      (pos + (b.workBody vals pos).2.1) hind]

/-- C7: re-activation resets the state to `STATE_FRAMESYNC`, and the frames
emitted by any subsequent run do not depend on the in-progress symbol
buffer or counter — whatever they held before re-activation, the same
frames are posted, so no previously collected symbol can reach a frame
emitted afterwards (every frame is rebuilt from a fresh
`STATE_DOWNCHIRP1` allocation and a `STATE_QUARTERCHIRP` counter reset). -/
theorem activate_discards_inflight_buffer (d : LoRaDemod) (buf : List ℤ) (sc : ℕ)
    (vals : ℕ → ChirpSel → ℕ) (pos n : ℕ) :
    d.activate.state = STATE_FRAMESYNC ∧
    (runFrom vals d.activate pos n).2.2 =
      (runFrom vals (LoRaDemod.activate { d with outSymbols := buf, symCount := sc })
        pos n).2.2 := by
  refine ⟨rfl, ?_⟩
  apply framesIndep_run
  unfold framesIndep LoRaDemod.activate
  exact ⟨rfl, rfl, rfl, rfl, rfl, rfl,
    fun hc => absurd (show STATE_FRAMESYNC = STATE_QUARTERCHIRP from hc) (by decide),
    fun hc => absurd (show STATE_FRAMESYNC = STATE_DATASYMBOLS from hc) (by decide)⟩
